import Mathlib

/-
Verification of the dyn-parse retry/execution core (src/lib.rs).

The Rust library drives a generate → execute → validate → retry loop:
an AI model produces a Python script, the script is run in a subprocess
against the document on stdin, its stdout must be a single valid JSON
value, and failures are recorded and fed back into the next prompt, up
to MAX_RETRIES attempts.

The external collaborators (the language model, the OS process layer,
and the bytes a process produces) are modelled as an oracle `Env`:
`gen` gives the model reply for each attempt's prompt, and `sandbox`
gives the observable outcome of spawning/running the process for each
attempt.  Everything the library itself computes (classification of
outcomes, record construction, prompt construction, error messages,
the retry loop) is transcribed from the source.
-/

namespace DynParse

/-! JSON validation.  The source calls `serde_json::from_str::<Value>` purely
to check that stdout is one well-formed JSON value.  `jsonValidate` models
that check as a recursive-descent recogniser of the JSON grammar
(value = object | array | string | number | true | false | null, with
leading and trailing whitespace accepted, as serde does). -/

/-- JSON insignificant whitespace characters (RFC 8259). -/
def isWs (c : Char) : Bool :=
  c = ' ' || c = '\n' || c = '\r' || c = '\t'

/-- Drop leading JSON whitespace. -/
def skipWs : List Char → List Char
  | [] => []
  | c :: cs => if isWs c then skipWs cs else c :: cs

/-- Drop a run of decimal digits. -/
def dropDigits : List Char → List Char
  | [] => []
  | c :: cs => if c.isDigit then dropDigits cs else c :: cs

/-- Require at least one decimal digit, then drop the whole digit run. -/
def expectDigits1 : List Char → Except String (List Char)
  | [] => .error "invalid number"
  | c :: cs => if c.isDigit then .ok (dropDigits cs) else .error "invalid number"

/-- Integer part of a JSON number: a single 0, or a nonzero digit run. -/
def parseIntPart : List Char → Except String (List Char)
  | [] => .error "invalid number"
  | '0' :: cs => .ok cs
  | c :: cs => if c.isDigit then .ok (dropDigits cs) else .error "invalid number"

/-- Optional fraction part: a dot followed by at least one digit. -/
def parseFrac : List Char → Except String (List Char)
  | '.' :: cs => expectDigits1 cs
  | cs => .ok cs

/-- Optional exponent part: e or E, optional sign, at least one digit. -/
def parseExp : List Char → Except String (List Char)
  | c :: cs =>
    if c = 'e' || c = 'E' then
      match cs with
      | s :: cs2 => if s = '+' || s = '-' then expectDigits1 cs2 else expectDigits1 (s :: cs2)
      | [] => .error "invalid number"
    else .ok (c :: cs)
  | [] => .ok []

/-- A JSON number: optional minus, integer part, optional fraction, optional exponent. -/
def parseNumber (cs : List Char) : Except String (List Char) := do
  let rest ← match cs with
    | '-' :: cs2 => parseIntPart cs2
    | _ => parseIntPart cs
  let rest2 ← parseFrac rest
  parseExp rest2

/-- Require the given literal characters to occur next. -/
def expectChars : List Char → List Char → Except String (List Char)
  | [], cs => .ok cs
  | _ :: _, [] => .error "invalid literal"
  | e :: es, c :: cs => if c = e then expectChars es cs else .error "invalid literal"

/-- Hexadecimal digit test, for string escapes. -/
def isHex (c : Char) : Bool :=
  c.isDigit || ('a' ≤ c && c ≤ 'f') || ('A' ≤ c && c ≤ 'F')

/-- Simple (single-character) JSON string escapes. -/
def isSimpleEscape (c : Char) : Bool :=
  c = '"' || c = '\\' || c = '/' || c = 'b' || c = 'f' || c = 'n' || c = 'r' || c = 't'

/-- Body of a JSON string after the opening quote: consume characters and
escapes up to and including the closing quote. -/
def parseStringRest : List Char → Except String (List Char)
  | [] => .error "unterminated string"
  | '"' :: cs => .ok cs
  | '\\' :: [] => .error "unterminated string"
  | '\\' :: e :: cs =>
    if isSimpleEscape e then parseStringRest cs
    else if e = 'u' then
      match cs with
      | h1 :: h2 :: h3 :: h4 :: cs2 =>
        if isHex h1 && isHex h2 && isHex h3 && isHex h4 then parseStringRest cs2
        else .error "invalid unicode escape"
      | _ => .error "invalid unicode escape"
    else .error "invalid escape"
  | c :: cs =>
    if c.toNat < 32 then .error "control character in string" else parseStringRest cs

/-- Parser modes: a whole value, the inside of an object (just after the
opening brace), an object member (key expected next), the inside of an
array, or an array item. -/
inductive PMode
  | value
  | objBody
  | objMember
  | arrBody
  | arrItem
deriving DecidableEq, Repr

/-- Fueled recursive-descent recogniser for JSON.  Returns the unconsumed
input on success.  The fuel only bounds the recursion depth (nesting and
member repetition); `jsonValidate` supplies more fuel than any input of the
given length can consume. -/
def parseJson : Nat → PMode → List Char → Except String (List Char)
  | 0, _, _ => .error "recursion limit exceeded"
  | _ + 1, .value, [] => .error "unexpected end of input"
  | fuel + 1, .value, c :: rest =>
    if c = '"' then parseStringRest rest
    else if c = '\x7b' then parseJson fuel .objBody (skipWs rest)
    else if c = '[' then parseJson fuel .arrBody (skipWs rest)
    else if c = 't' then expectChars ['r', 'u', 'e'] rest
    else if c = 'f' then expectChars ['a', 'l', 's', 'e'] rest
    else if c = 'n' then expectChars ['u', 'l', 'l'] rest
    else if c = '-' || c.isDigit then parseNumber (c :: rest)
    else .error "expected value"
  | fuel + 1, .objBody, cs =>
    match cs with
    | '\x7d' :: rest => .ok rest
    | _ => parseJson fuel .objMember cs
  | fuel + 1, .objMember, cs =>
    match cs with
    | '"' :: rest =>
      match parseStringRest rest with
      | .error e => .error e
      | .ok afterKey =>
        match skipWs afterKey with
        | ':' :: afterColon =>
          match parseJson fuel .value (skipWs afterColon) with
          | .error e => .error e
          | .ok afterVal =>
            match skipWs afterVal with
            | ',' :: rest2 => parseJson fuel .objMember (skipWs rest2)
            | '\x7d' :: rest2 => .ok rest2
            | _ => .error "expected comma or end of object"
        | _ => .error "expected colon"
    | _ => .error "expected object key"
  | fuel + 1, .arrBody, cs =>
    match cs with
    | ']' :: rest => .ok rest
    | _ => parseJson fuel .arrItem cs
  | fuel + 1, .arrItem, cs =>
    match parseJson fuel .value cs with
    | .error e => .error e
    | .ok afterVal =>
      match skipWs afterVal with
      | ',' :: rest2 => parseJson fuel .arrItem (skipWs rest2)
      | ']' :: rest2 => .ok rest2
      | _ => .error "expected comma or end of array"

/-- Model of the `serde_json::from_str::<serde_json::Value>` validation used
by `execute_python_script`: the whole string, modulo surrounding whitespace,
must be exactly one well-formed JSON value. -/
def jsonValidate (s : String) : Except String Unit :=
  match parseJson (2 * s.length + 2) .value (skipWs s.data) with
  | .error e => .error e
  | .ok rest =>
    match skipWs rest with
    | [] => .ok ()
    | _ => .error "trailing characters"

example : jsonValidate "\x7b\x7d" = .ok () := rfl
example : jsonValidate " \x7b\"a\": [1, -2.5e3, true, null, \"s\"]\x7d " = .ok () := rfl
example : jsonValidate "\x7bnot valid json" = .error "expected object key" := rfl
example : jsonValidate "" = .error "unexpected end of input" := rfl
example : jsonValidate "1 2" = .error "trailing characters" := rfl

/-! Data model and the script executor. -/

/-- Maximum number of retry attempts (`const MAX_RETRIES: usize = 3`). -/
def MAX_RETRIES : Nat := 3

/-- One generation/execution attempt (`struct ParseAttempt`). -/
structure ParseAttempt where
  attempt_number : Nat
  script : String
  error : Option String
  success : Bool
deriving DecidableEq, Repr

/-- Observable outcome of spawning and running the Python subprocess for one
attempt.  `spawnErr` is a failure of `Command::spawn`, `waitErr` a failure of
`wait_with_output`; `output` is a completed process with its exit status
(`statusSuccess` is `status.success()`, `code` is `status.code()`) and its
captured streams.  A captured stream is given as the result of
`String::from_utf8` on the raw bytes: either the decoded text or the decode
error's message. -/
inductive SandboxResult
  | spawnErr (msg : String)
  | waitErr (msg : String)
  | output (statusSuccess : Bool) (code : Option Int)
      (stdout : Except String String) (stderr : Except String String)
deriving Repr

/-- Rust's `char::is_whitespace`: the Unicode White_Space property
(tab through carriage return, space, next line, no-break space, ogham space
mark, the en-quad..hair-space range, line and paragraph separators,
narrow no-break space, medium mathematical space, ideographic space). -/
def isRustWhitespace (c : Char) : Bool :=
  (0x09 ≤ c.toNat && c.toNat ≤ 0x0D) || c.toNat = 0x20 || c.toNat = 0x85
    || c.toNat = 0xA0 || c.toNat = 0x1680
    || (0x2000 ≤ c.toNat && c.toNat ≤ 0x200A)
    || c.toNat = 0x2028 || c.toNat = 0x2029 || c.toNat = 0x202F
    || c.toNat = 0x205F || c.toNat = 0x3000

/-- Model of the blank check `stdout.trim().is_empty()`: `str::trim` strips
Unicode-White_Space characters from both ends, so the trimmed string is
empty exactly when every character has the White_Space property.  (Stated
this way because it is directly executable.) -/
def isBlank (s : String) : Bool :=
  s.data.all isRustWhitespace

example : isBlank " \x09\x0A\x0B\x0C\x0D\u0085\u00A0\u2003\u2028\u3000" = true := rfl
example : isBlank "\x0C\n" = true := rfl
example : isBlank "\x7b\x7d" = false := rfl
example : isBlank "" = true := rfl

/-- Transcription of `execute_python_script` (src/lib.rs lines 153-221),
with the process behaviour supplied as a `SandboxResult`.  The stdin-writing
task and all logging are behaviour-irrelevant and omitted; the document
argument is kept for signature fidelity (the process outcome absorbs it). -/
def execute_python_script (python_script document : String)
    (res : SandboxResult) : Except String String :=
  match res with
  | .spawnErr m => .error m
  | .waitErr m => .error m
  | .output statusSuccess code stdoutRaw stderrRaw =>
    if statusSuccess then
      match stdoutRaw with
      | .error m => .error m
      | .ok stdout =>
        if isBlank stdout then
          .error "Script executed successfully but produced no output"
        else
          match jsonValidate stdout with
          | .error e =>
            .error ("Script output is not valid JSON: " ++ e ++ "\nOutput was: " ++ stdout)
          | .ok _ => .ok stdout
    else
      match stderrRaw with
      | .error m => .error m
      | .ok error_message =>
        .error ("Python script execution failed with exit code: "
          ++ toString (code.getD (-1))
          ++ "\nSTDERR: " ++ error_message
          ++ "\nSCRIPT:\n" ++ python_script)

/-- The external world of one `dynamic_parse` call: `gen attempt prompt` is
the result of `chat.add_message(&user_prompt)` on the given attempt, and
`sandbox attempt` is the process outcome of that attempt's script run. -/
structure Env where
  gen : Nat → String → Except String String
  sandbox : Nat → SandboxResult

/-- One attempt's chunk of `build_user_prompt`'s error-history block. -/
def attemptHistoryLine (a : ParseAttempt) : String :=
  "Attempt " ++ toString a.attempt_number ++ ": "
    ++ match a.error with
       | some error =>
         "FAILED - " ++ error ++ "\n"
           ++ if a.script = "" then ""
              else "Script that failed:\n```python\n" ++ a.script ++ "\n```\n\n"
       | none => "SUCCESS\n"

/-- Transcription of `build_user_prompt` (src/lib.rs lines 243-283). -/
def build_user_prompt (document instructions : String)
    (attempts : List ParseAttempt) (current_attempt : Nat) : String :=
  let prompt :=
    "\n**Instructions:**\n" ++ instructions
      ++ "\n\n**Document to Parse:**\n---\n" ++ document ++ "\n---\n"
  let prompt :=
    if current_attempt > 1 ∧ attempts ≠ [] then
      prompt ++ "\n**Previous Attempts and Errors:**\n"
        ++ (attempts.map attemptHistoryLine).foldr (fun a b => a ++ b) ""
        ++ "Please learn from these errors and create a better script.\n\n"
    else prompt
  prompt ++ "Provide the Python script now:"

/-- One attempt's chunk of `format_attempt_history`. -/
def formatAttemptLine (a : ParseAttempt) : String :=
  "--- Attempt " ++ toString a.attempt_number ++ " ---\n"
    ++ (if a.success then "Status: SUCCESS\n"
        else "Status: FAILED\n"
          ++ match a.error with
             | some error => "Error: " ++ error ++ "\n"
             | none => "")
    ++ if a.script = "" then "" else "Script:\n" ++ a.script ++ "\n\n"

/-- Transcription of `format_attempt_history` (src/lib.rs lines 286-306). -/
def format_attempt_history (attempts : List ParseAttempt) : String :=
  (attempts.map formatAttemptLine).foldr (fun a b => a ++ b) ""

/-! The retry loop.  The Rust `for attempt in 1..=MAX_RETRIES` with early
return/bail is modelled by recursion; `fuel` counts the iterations still
available (the call starts with `MAX_RETRIES` and attempt number 1, so the
fuel 0 branch corresponds to the `unreachable!` after the loop).  Alongside
the Rust return value the model returns the final `attempts` vector, which
in the source is a local; exposing it lets the attempt-log invariants be
stated. -/

/-- Loop body of `dynamic_parse` (src/lib.rs lines 55-149). -/
def parseGo (env : Env) (document instructions : String) :
    Nat → Nat → List ParseAttempt → Except String String × List ParseAttempt
  | 0, _, attempts =>
    (.error "Should have returned or failed within the retry loop", attempts)
  | fuel + 1, attempt, attempts =>
    let user_prompt := build_user_prompt document instructions attempts attempt
    match env.gen attempt user_prompt with
    | .error e =>
      let error_msg := "Failed to generate script: " ++ e
      let attempts2 := attempts ++
        [{ attempt_number := attempt, script := "", error := some error_msg,
           success := false }]
      if attempt = MAX_RETRIES then
        (.error ("Failed to generate script after " ++ toString MAX_RETRIES
          ++ " attempts. Last error: " ++ error_msg), attempts2)
      else
        parseGo env document instructions fuel (attempt + 1) attempts2
    | .ok python_script =>
      match execute_python_script python_script document (env.sandbox attempt) with
      | .ok result =>
        (.ok result, attempts ++
          [{ attempt_number := attempt, script := python_script, error := none,
             success := true }])
      | .error e =>
        let error_msg := "Script execution failed: " ++ e
        let attempts2 := attempts ++
          [{ attempt_number := attempt, script := python_script,
             error := some error_msg, success := false }]
        if attempt = MAX_RETRIES then
          (.error ("All " ++ toString MAX_RETRIES
            ++ " parsing attempts failed. Final error: " ++ error_msg
            ++ "\n\nAll attempts:\n" ++ format_attempt_history attempts2), attempts2)
        else
          parseGo env document instructions fuel (attempt + 1) attempts2

/-- `dynamic_parse` together with its final (otherwise local) attempt log. -/
def dynamicParseRun (env : Env) (document instructions : String) :
    Except String String × List ParseAttempt :=
  parseGo env document instructions MAX_RETRIES 1 []

/-- Transcription of `dynamic_parse` (src/lib.rs lines 45-150). -/
def dynamic_parse (env : Env) (document instructions : String) :
    Except String String :=
  (dynamicParseRun env document instructions).1

/-- Loop body of `dynamic_parse_with_details` (src/lib.rs lines 319-408); it
duplicates `dynamic_parse`'s loop, returning the attempt vector on success. -/
def parseGoD (env : Env) (document instructions : String) :
    Nat → Nat → List ParseAttempt → Except String (String × List ParseAttempt)
  | 0, _, _ =>
    .error "Should have returned or failed within the retry loop"
  | fuel + 1, attempt, attempts =>
    let user_prompt := build_user_prompt document instructions attempts attempt
    match env.gen attempt user_prompt with
    | .error e =>
      let error_msg := "Failed to generate script: " ++ e
      let attempts2 := attempts ++
        [{ attempt_number := attempt, script := "", error := some error_msg,
           success := false }]
      if attempt = MAX_RETRIES then
        .error ("Failed to generate script after " ++ toString MAX_RETRIES
          ++ " attempts. Last error: " ++ error_msg)
      else
        parseGoD env document instructions fuel (attempt + 1) attempts2
    | .ok python_script =>
      match execute_python_script python_script document (env.sandbox attempt) with
      | .ok result =>
        .ok (result, attempts ++
          [{ attempt_number := attempt, script := python_script, error := none,
             success := true }])
      | .error e =>
        let error_msg := "Script execution failed: " ++ e
        let attempts2 := attempts ++
          [{ attempt_number := attempt, script := python_script,
             error := some error_msg, success := false }]
        if attempt = MAX_RETRIES then
          .error ("All " ++ toString MAX_RETRIES
            ++ " parsing attempts failed. Final error: " ++ error_msg
            ++ "\n\nAll attempts:\n" ++ format_attempt_history attempts2)
        else
          parseGoD env document instructions fuel (attempt + 1) attempts2

/-- Transcription of `dynamic_parse_with_details` (src/lib.rs lines 309-411). -/
def dynamic_parse_with_details (env : Env) (document instructions : String) :
    Except String (String × List ParseAttempt) :=
  parseGoD env document instructions MAX_RETRIES 1 []

/-! General-purpose helper lemmas. -/

/-- The interval `[1, ..., n+1]` is `[1, ..., n]` with `n+1` appended. -/
theorem range1_concat (n : Nat) :
    List.range' 1 (n + 1) = List.range' 1 n ++ [n + 1] := by
  simpa [Nat.add_comm] using @List.range'_concat 1 1 n

/-- A string with a nonempty left part of an append is nonempty. -/
theorem append_ne_empty_of_left (a b : String) (h : a.data ≠ []) : a ++ b ≠ "" := by
  intro hab
  have hd := congrArg String.data hab
  rw [String.data_append] at hd
  exact h (List.append_eq_nil.mp hd).1

/-- Extending a list on the left preserves containment of a segment. -/
theorem seg_app_left {α : Type _} (a : List α) {b c : List α} (h : b <:+: c) :
    b <:+: a ++ c := by
  obtain ⟨s, t, rfl⟩ := h
  exact ⟨a ++ s, t, by simp⟩

/-- Extending a list on the right preserves containment of a segment. -/
theorem seg_app_right {α : Type _} (a : List α) {b c : List α} (h : b <:+: c) :
    b <:+: c ++ a := by
  obtain ⟨s, t, rfl⟩ := h
  exact ⟨s, t ++ a, by simp⟩

/-- A member's rendering occurs inside the fold that concatenates all
renderings. -/
theorem mem_foldr_seg (f : ParseAttempt → String) :
    ∀ (l : List ParseAttempt), ∀ a ∈ l,
      (f a).data <:+: ((l.map f).foldr (fun x y => x ++ y) "").data
  | [], a, h => absurd h (List.not_mem_nil a)
  | b :: l, a, h => by
    simp only [List.map_cons, List.foldr_cons, String.data_append]
    rcases List.mem_cons.mp h with h1 | h2
    · subst h1
      exact seg_app_right _ (List.infix_refl _)
    · exact seg_app_left _ (mem_foldr_seg f l a h2)

/-- The two failure messages the loop can store are never equal: one starts
with an F, the other with an S. -/
theorem gen_msg_ne_exec_msg (e1 e2 : String) :
    "Failed to generate script: " ++ e1 ≠ "Script execution failed: " ++ e2 := by
  intro h
  have hd := congrArg String.data h
  rw [String.data_append, String.data_append] at hd
  rw [show ("Failed to generate script: ").data =
      'F' :: ("ailed to generate script: ").data from rfl] at hd
  rw [show ("Script execution failed: ").data =
      'S' :: ("cript execution failed: ").data from rfl] at hd
  simp only [List.cons_append, List.cons.injEq] at hd
  exact absurd hd.1 (by decide)

/-- A list all of whose non-final elements fail the predicate has at most one
element satisfying it. -/
theorem countP_le_one_of_dropLast {l : List ParseAttempt}
    (h : ∀ r ∈ l.dropLast, r.success = false) :
    l.countP (fun r => r.success) ≤ 1 := by
  rcases eq_or_ne l [] with rfl | hne
  · simp
  · have hsplit := List.dropLast_append_getLast hne
    calc l.countP (fun r => r.success)
        = (l.dropLast ++ [l.getLast hne]).countP (fun r => r.success) := by rw [hsplit]
      _ = l.dropLast.countP (fun r => r.success)
            + ([l.getLast hne] : List ParseAttempt).countP (fun r => r.success) := by
            rw [List.countP_append]
      _ ≤ 0 + 1 := by
            have h0 : l.dropLast.countP (fun r => r.success) = 0 :=
              List.countP_eq_zero.mpr (by intro a ha; simp [h a ha])
            have h1 : ([l.getLast hne] : List ParseAttempt).countP (fun r => r.success) ≤ 1 :=
              le_trans (List.countP_le_length _) (by simp)
            omega
      _ = 1 := by omega

/-! Characterisation of the executor. -/

/-- A call to the executor returns a text exactly when the process exited
successfully, its stdout decoded, was non-blank after trimming and was valid
JSON, and the returned text is that stdout, unmodified. -/
theorem execute_ok_iff (python_script document : String) (res : SandboxResult) (s : String) :
    execute_python_script python_script document res = .ok s ↔
      ∃ code stderrRaw, res = .output true code (.ok s) stderrRaw ∧
        isBlank s = false ∧ jsonValidate s = .ok () := by
  constructor
  · intro h
    cases res with
    | spawnErr m => exact absurd h (by simp [execute_python_script])
    | waitErr m => exact absurd h (by simp [execute_python_script])
    | output statusSuccess code so se =>
      cases statusSuccess with
      | false =>
        cases se <;> simp [execute_python_script] at h
      | true =>
        cases so with
        | error m => simp [execute_python_script] at h
        | ok stdout =>
          cases ht : isBlank stdout with
          | true => simp [execute_python_script, ht] at h
          | false =>
            cases hjv : jsonValidate stdout with
            | error e => simp [execute_python_script, ht, hjv] at h
            | ok u =>
              have hs : stdout = s := by
                simpa [execute_python_script, ht, hjv] using h
              subst hs
              exact ⟨code, se, rfl, ht, by cases u; exact hjv⟩
  · rintro ⟨code, serr, rfl, ht, hj⟩
    simp [execute_python_script, ht, hj]

/-! The ledger of attempt records and the loop invariants. -/

/-- Every record the loop appends is of one of three shapes: a success record
(no error, stemming from a successful execution of its script), a
generation-failure record (empty script, generation error message), or an
execution-failure record (execution error message wrapping the executor's
error for its script and its attempt's process outcome). -/
def recordLedger (env : Env) (document : String) (r : ParseAttempt) : Prop :=
  (r.success = true ∧ r.error = none ∧
    ∃ s, execute_python_script r.script document (env.sandbox r.attempt_number) = .ok s)
  ∨ (r.success = false ∧ r.script = "" ∧
      ∃ e, r.error = some ("Failed to generate script: " ++ e))
  ∨ (r.success = false ∧
      ∃ e, r.error = some ("Script execution failed: " ++ e) ∧
        execute_python_script r.script document (env.sandbox r.attempt_number) = .error e)

/-- Everything the retry loop guarantees about its result and final log. -/
structure RunSpec (env : Env) (document : String)
    (p : Except String String × List ParseAttempt) : Prop where
  numbering : p.2.map (fun r => r.attempt_number) = List.range' 1 p.2.length
  len_le : p.2.length ≤ MAX_RETRIES
  ledger : ∀ r ∈ p.2, recordLedger env document r
  before_last : ∀ r ∈ p.2.dropLast, r.success = false
  ok_spec : ∀ s, p.1 = .ok s →
    jsonValidate s = .ok () ∧ p.2.getLast?.map (fun r => r.success) = some true
  err_spec : ∀ m, p.1 = .error m →
    (∀ r ∈ p.2, r.success = false) ∧ p.2.length = MAX_RETRIES ∧
      ∃ r e, p.2.getLast? = some r ∧ r.error = some e ∧
        (((∃ e0, e = "Failed to generate script: " ++ e0) ∧ r.script = "" ∧
            m = "Failed to generate script after " ++ toString MAX_RETRIES
              ++ " attempts. Last error: " ++ e)
         ∨ ((∃ e0, e = "Script execution failed: " ++ e0) ∧
            m = "All " ++ toString MAX_RETRIES
              ++ " parsing attempts failed. Final error: " ++ e
              ++ "\n\nAll attempts:\n" ++ format_attempt_history p.2))

/-- Appending a terminal failure record at the retry limit yields a run
satisfying `RunSpec`. -/
theorem runSpec_fail (env : Env) (document : String) (attempts : List ParseAttempt)
    (r : ParseAttempt) (m : String)
    (h4 : attempts.map (fun x => x.attempt_number) = List.range' 1 attempts.length)
    (hlen : attempts.length + 1 = MAX_RETRIES)
    (h5 : r.attempt_number = attempts.length + 1)
    (h6 : ∀ x ∈ attempts, x.success = false)
    (h7 : ∀ x ∈ attempts, recordLedger env document x)
    (hr : recordLedger env document r)
    (hrs : r.success = false)
    (hre : ∃ e, r.error = some e ∧
      (((∃ e0, e = "Failed to generate script: " ++ e0) ∧ r.script = "" ∧
          m = "Failed to generate script after " ++ toString MAX_RETRIES
            ++ " attempts. Last error: " ++ e)
       ∨ ((∃ e0, e = "Script execution failed: " ++ e0) ∧
          m = "All " ++ toString MAX_RETRIES
            ++ " parsing attempts failed. Final error: " ++ e
            ++ "\n\nAll attempts:\n" ++ format_attempt_history (attempts ++ [r])))) :
    RunSpec env document (.error m, attempts ++ [r]) := by
  refine ⟨?_, ?_, ?_, ?_, ?_, ?_⟩
  · simp [List.map_append, h4, h5, range1_concat]
  · simp only [List.length_append, List.length_cons, List.length_nil]
    omega
  · intro x hx
    rcases List.mem_append.mp hx with h | h
    · exact h7 x h
    · rw [List.mem_singleton.mp h]; exact hr
  · rw [List.dropLast_concat]; exact h6
  · intro s hs; exact absurd hs (by simp)
  · intro m' hm'
    have hm : m = m' := by injection hm'
    subst hm
    refine ⟨?_, ?_, ?_⟩
    · intro x hx
      rcases List.mem_append.mp hx with h | h
      · exact h6 x h
      · rw [List.mem_singleton.mp h]; exact hrs
    · simp only [List.length_append, List.length_cons, List.length_nil]
      omega
    · obtain ⟨e, he, hdisj⟩ := hre
      exact ⟨r, e, List.getLast?_concat _, he, hdisj⟩

/-- Appending a success record yields a run satisfying `RunSpec`. -/
theorem runSpec_ok (env : Env) (document : String) (attempts : List ParseAttempt)
    (r : ParseAttempt) (s : String)
    (h4 : attempts.map (fun x => x.attempt_number) = List.range' 1 attempts.length)
    (hlen : attempts.length + 1 ≤ MAX_RETRIES)
    (h5 : r.attempt_number = attempts.length + 1)
    (h6 : ∀ x ∈ attempts, x.success = false)
    (h7 : ∀ x ∈ attempts, recordLedger env document x)
    (hr : recordLedger env document r)
    (hrs : r.success = true)
    (hjson : jsonValidate s = .ok ()) :
    RunSpec env document (.ok s, attempts ++ [r]) := by
  refine ⟨?_, ?_, ?_, ?_, ?_, ?_⟩
  · simp [List.map_append, h4, h5, range1_concat]
  · simp only [List.length_append, List.length_cons, List.length_nil]
    omega
  · intro x hx
    rcases List.mem_append.mp hx with h | h
    · exact h7 x h
    · rw [List.mem_singleton.mp h]; exact hr
  · rw [List.dropLast_concat]; exact h6
  · intro s' hs'
    have hss : s = s' := by injection hs'
    subst hss
    exact ⟨hjson, by rw [List.getLast?_concat]; simp [hrs]⟩
  · intro m hm; exact absurd hm (by simp)

/-- Master invariant of the retry loop: starting from a well-formed partial
log, the loop's final result and log satisfy `RunSpec`, and the final log
extends the initial one. -/
theorem parseGo_spec (env : Env) (document instructions : String) :
    ∀ fuel attempt attempts,
      attempt + fuel = MAX_RETRIES + 1 →
      1 ≤ attempt →
      attempt ≤ MAX_RETRIES →
      attempts.map (fun r => r.attempt_number) = List.range' 1 attempts.length →
      attempt = attempts.length + 1 →
      (∀ r ∈ attempts, r.success = false) →
      (∀ r ∈ attempts, recordLedger env document r) →
      ∀ res log, parseGo env document instructions fuel attempt attempts = (res, log) →
        (∃ t, log = attempts ++ t) ∧ RunSpec env document (res, log) := by
  intro fuel
  induction fuel with
  | zero =>
    intro attempt attempts h1 h2 h3 _ _ _ _
    omega
  | succ n ih =>
    intro attempt attempts h1 h2 h3 h4 h5 h6 h7 res log hp
    rw [parseGo] at hp
    split at hp
    · -- generation failed
      rename_i e hgen
      split at hp
      · -- final attempt: bail with the generation message
        rename_i hmax
        cases hp
        refine ⟨⟨_, rfl⟩, ?_⟩
        exact runSpec_fail env document attempts _ _ h4 (by omega) h5 h6 h7
          (Or.inr (Or.inl ⟨rfl, rfl, ⟨e, rfl⟩⟩)) rfl
          ⟨"Failed to generate script: " ++ e, rfl, Or.inl ⟨⟨e, rfl⟩, rfl, rfl⟩⟩
      · -- retry
        rename_i hmax
        obtain ⟨⟨t, ht⟩, hspec⟩ := ih (attempt + 1)
          (attempts ++ [⟨attempt, "", some ("Failed to generate script: " ++ e), false⟩])
          (by omega) (by omega) (by omega)
          (by simp [List.map_append, h4, h5, range1_concat])
          (by simp [h5])
          (by intro x hx
              rcases List.mem_append.mp hx with h | h
              · exact h6 x h
              · rw [List.mem_singleton.mp h])
          (by intro x hx
              rcases List.mem_append.mp hx with h | h
              · exact h7 x h
              · rw [List.mem_singleton.mp h]
                exact Or.inr (Or.inl ⟨rfl, rfl, ⟨e, rfl⟩⟩))
          res log hp
        exact ⟨⟨[⟨attempt, "", some ("Failed to generate script: " ++ e), false⟩] ++ t,
          by rw [ht, List.append_assoc]⟩, hspec⟩
    · -- a script was generated
      rename_i python_script hgen
      split at hp
      · -- execution succeeded: return
        rename_i result hexec
        obtain ⟨code, serr, hres, htrim, hjson⟩ := (execute_ok_iff _ _ _ _).mp hexec
        cases hp
        refine ⟨⟨_, rfl⟩, ?_⟩
        exact runSpec_ok env document attempts _ _ h4 (by omega) h5 h6 h7
          (Or.inl ⟨rfl, rfl, ⟨result, hexec⟩⟩) rfl hjson
      · -- execution failed
        rename_i e hexec
        split at hp
        · -- final attempt: bail with the aggregate message
          rename_i hmax
          cases hp
          refine ⟨⟨_, rfl⟩, ?_⟩
          refine runSpec_fail env document attempts _ _ h4 (by omega) h5 h6 h7
            (Or.inr (Or.inr ⟨rfl, ⟨e, rfl, hexec⟩⟩)) rfl
            ⟨"Script execution failed: " ++ e, rfl, Or.inr ⟨⟨e, rfl⟩, rfl⟩⟩
        · -- retry
          rename_i hmax
          obtain ⟨⟨t, ht⟩, hspec⟩ := ih (attempt + 1)
            (attempts ++ [⟨attempt, python_script,
              some ("Script execution failed: " ++ e), false⟩])
            (by omega) (by omega) (by omega)
            (by simp [List.map_append, h4, h5, range1_concat])
            (by simp [h5])
            (by intro x hx
                rcases List.mem_append.mp hx with h | h
                · exact h6 x h
                · rw [List.mem_singleton.mp h])
            (by intro x hx
                rcases List.mem_append.mp hx with h | h
                · exact h7 x h
                · rw [List.mem_singleton.mp h]
                  exact Or.inr (Or.inr ⟨rfl, ⟨e, rfl, hexec⟩⟩))
            res log hp
          exact ⟨⟨[⟨attempt, python_script, some ("Script execution failed: " ++ e), false⟩] ++ t,
            by rw [ht, List.append_assoc]⟩, hspec⟩

/-- The specialisation of the master invariant to a fresh call. -/
theorem dynamicParseRun_spec (env : Env) (document instructions : String) :
    RunSpec env document (dynamicParseRun env document instructions) :=
  (parseGo_spec env document instructions MAX_RETRIES 1 [] (by decide) (by decide)
    (by decide) (by simp) (by simp) (by simp) (by simp)
    (dynamicParseRun env document instructions).1
    (dynamicParseRun env document instructions).2 rfl).2

/-- One unfolding step of the loop for an attempt that generates a script,
fails in execution and is not the last attempt. -/
theorem parseGo_step (env : Env) (document instructions : String) (fuel attempt : Nat)
    (attempts : List ParseAttempt) (s e : String)
    (hgen : env.gen attempt (build_user_prompt document instructions attempts attempt)
      = .ok s)
    (hexec : execute_python_script s document (env.sandbox attempt) = .error e)
    (hmax : attempt ≠ MAX_RETRIES) :
    parseGo env document instructions (fuel + 1) attempt attempts =
      parseGo env document instructions fuel (attempt + 1)
        (attempts ++ [⟨attempt, s, some ("Script execution failed: " ++ e), false⟩]) := by
  simp only [parseGo, hgen, hexec]
  rw [if_neg hmax]

/-- The detailed loop equals the plain loop with the final log paired onto
success. -/
theorem parseGoD_eq (env : Env) (document instructions : String) :
    ∀ fuel attempt attempts res log,
      parseGo env document instructions fuel attempt attempts = (res, log) →
      parseGoD env document instructions fuel attempt attempts =
        Except.map (fun s => (s, log)) res := by
  intro fuel
  induction fuel with
  | zero =>
    intro attempt attempts res log hp
    cases hp; rfl
  | succ n ih =>
    intro attempt attempts res log hp
    rw [parseGo] at hp
    rw [parseGoD]
    split at hp
    · rename_i e hgen
      simp only [hgen]
      split at hp
      · rename_i hmax
        rw [if_pos hmax]
        cases hp
        rfl
      · rename_i hmax
        rw [if_neg hmax]
        exact ih (attempt + 1) _ res log hp
    · rename_i python_script hgen
      simp only [hgen]
      split at hp
      · rename_i result hexec
        try simp only [hexec]
        cases hp
        rfl
      · rename_i e hexec
        try simp only [hexec]
        split at hp
        · rename_i hmax
          rw [if_pos hmax]
          cases hp
          rfl
        · rename_i hmax
          rw [if_neg hmax]
          exact ih (attempt + 1) _ res log hp

/-- `dynamic_parse_with_details` is `dynamic_parse` with the final log
attached to a success. -/
theorem with_details_eq (env : Env) (document instructions : String) :
    dynamic_parse_with_details env document instructions =
      Except.map (fun s => (s, (dynamicParseRun env document instructions).2))
        (dynamicParseRun env document instructions).1 :=
  parseGoD_eq env document instructions MAX_RETRIES 1 []
    (dynamicParseRun env document instructions).1
    (dynamicParseRun env document instructions).2 rfl

/-! String-segment helpers for containment statements. -/

/-- A string's characters occur inside itself. -/
theorem strSeg_refl (s : String) : s.data <:+: s.data := List.infix_refl _

/-- Containment survives prepending a string. -/
theorem strSeg_app_left (a : String) {b : List Char} {c : String}
    (h : b <:+: c.data) : b <:+: (a ++ c).data := by
  rw [String.data_append]; exact seg_app_left a.data h

/-- Containment survives appending a string. -/
theorem strSeg_app_right (a : String) {b : List Char} {c : String}
    (h : b <:+: c.data) : b <:+: (c ++ a).data := by
  rw [String.data_append]; exact seg_app_right a.data h

/-! Concrete environments used to witness the theorems on concrete runs. -/

/-- A model that always fails to generate; the sandbox is never reached. -/
def envGenFail : Env where
  gen := fun _ _ => .error "model backend down"
  sandbox := fun _ => .spawnErr "unused"

/-- A model returning a fixed script whose run prints an empty JSON object. -/
def envOk : Env where
  gen := fun _ _ => .ok "print(42)"
  sandbox := fun _ => .output true (some 0) (.ok "\x7b\x7d") (.ok "")

/-- Attempt 1's spawn fails; attempt 2 runs and prints an empty JSON object. -/
def envSpawnThenOk : Env where
  gen := fun _ _ => .ok "print(42)"
  sandbox := fun attempt =>
    match attempt with
    | 1 => .spawnErr "No such file or directory (os error 2)"
    | _ => .output true (some 0) (.ok "\x7b\x7d") (.ok "")

/-- Every run exits with code 2 and diagnostic stderr text. -/
def envExitFail : Env where
  gen := fun _ _ => .ok "print(42)"
  sandbox := fun _ => .output false (some 2) (.ok "") (.ok "boom")

/-- The model generates an empty script; running it prints nothing. -/
def envEmptyScript : Env where
  gen := fun _ _ => .ok ""
  sandbox := fun _ => .output true (some 0) (.ok "") (.ok "")

/-- The attempt-1 record produced by `envGenFail`. -/
def genFailRec : ParseAttempt :=
  ⟨1, "", some "Failed to generate script: model backend down", false⟩

/-! The claims. -/

/-- C1: every successful call of `dynamic_parse` or
`dynamic_parse_with_details` returns text that validates as a single
well-formed JSON value; success is never returned when validation fails. -/
theorem successes_are_valid_json (env : Env) (document instructions : String) :
    (∀ s, dynamic_parse env document instructions = .ok s → jsonValidate s = .ok ())
    ∧ (∀ s log, dynamic_parse_with_details env document instructions = .ok (s, log) →
        jsonValidate s = .ok ()) := by
  constructor
  · intro s hs
    exact ((dynamicParseRun_spec env document instructions).ok_spec s hs).1
  · intro s log h
    rw [with_details_eq] at h
    cases hres : (dynamicParseRun env document instructions).1 with
    | error e => rw [hres] at h; nomatch h
    | ok s' =>
      rw [hres] at h
      have hjson := ((dynamicParseRun_spec env document instructions).ok_spec s' hres).1
      have hs' : s' = s ∧ (dynamicParseRun env document instructions).2 = log := by
        simpa [Except.map] using h
      exact hs'.1 ▸ hjson

/-- Witness for C1 on a concrete run. -/
theorem successes_are_valid_json_witness : jsonValidate "\x7b\x7d" = .ok () :=
  (successes_are_valid_json envOk "d" "i").1 "\x7b\x7d" rfl

/-- C2: the executor succeeds exactly when the exit status is success, the
decoded stdout is non-blank and parses as one JSON value (returned
untouched); exit 0 with blank output yields the empty-output error and exit
0 with non-blank invalid output yields the invalid-output error carrying the
parse diagnostic and the raw text. -/
theorem execute_python_script_spec (python_script document : String)
    (res : SandboxResult) :
    (∀ s, execute_python_script python_script document res = .ok s ↔
      ∃ code stderrRaw, res = .output true code (.ok s) stderrRaw ∧
        isBlank s = false ∧ jsonValidate s = .ok ())
    ∧ (∀ code s stderrRaw, res = .output true code (.ok s) stderrRaw →
        isBlank s = true →
        execute_python_script python_script document res =
          .error "Script executed successfully but produced no output")
    ∧ (∀ code s stderrRaw e, res = .output true code (.ok s) stderrRaw →
        isBlank s = false → jsonValidate s = .error e →
        execute_python_script python_script document res =
          .error ("Script output is not valid JSON: " ++ e ++ "\nOutput was: " ++ s)) := by
  refine ⟨fun s => execute_ok_iff python_script document res s, ?_, ?_⟩
  · rintro code s serr rfl ht
    simp [execute_python_script, ht]
  · rintro code s serr e rfl ht hjv
    simp [execute_python_script, ht, hjv]

/-- Witness for C2: the three classifications on concrete outputs. -/
theorem execute_python_script_spec_witness :
    execute_python_script "print(42)" "d" (.output true (some 0) (.ok " \n") (.ok ""))
        = .error "Script executed successfully but produced no output"
    ∧ execute_python_script "print(42)" "d"
        (.output true (some 0) (.ok "\x7bnot valid json") (.ok ""))
        = .error ("Script output is not valid JSON: expected object key"
            ++ "\nOutput was: \x7bnot valid json")
    ∧ execute_python_script "print(42)" "d"
        (.output true (some 0) (.ok "\x7b\x7d") (.ok "")) = .ok "\x7b\x7d" :=
  ⟨(execute_python_script_spec "print(42)" "d" _).2.1 (some 0) " \n" (.ok "") rfl
      (by decide),
   (execute_python_script_spec "print(42)" "d" _).2.2 (some 0) "\x7bnot valid json"
      (.ok "") "expected object key" rfl (by decide) rfl,
   ((execute_python_script_spec "print(42)" "d" _).1 "\x7b\x7d").mpr
      ⟨some 0, .ok "", rfl, by decide, rfl⟩⟩

set_option maxRecDepth 8192 in
/-- C3 counterexample: when every attempt fails in generation, the terminal
error of `dynamic_parse` carries only the last error message and attempt
count; the rendered transcript of the (nonempty) attempt log is absent. -/
theorem exhausted_generation_error_lacks_transcript :
    dynamic_parse envGenFail "d" "i" =
      .error "Failed to generate script after 3 attempts. Last error: Failed to generate script: model backend down"
    ∧ (dynamicParseRun envGenFail "d" "i").2.length = 3
    ∧ ¬ (format_attempt_history (dynamicParseRun envGenFail "d" "i").2).data <:+:
        ("Failed to generate script after 3 attempts. Last error: Failed to generate script: model backend down").data := by
  refine ⟨rfl, rfl, ?_⟩
  intro h
  have hlen := h.length_le
  revert hlen
  decide

/-- C3 (amended): on exhaustion the terminal error always embeds the final
attempt's error message, and the final record is a generation failure or an
execution failure (told apart by its error's prefix); when the final attempt
failed in execution, the error is the aggregate message and contains the
full rendered transcript of the attempt log; when the final attempt failed
in generation, the error is only the attempt count plus the last error
message, with no transcript. -/
theorem exhausted_error_contents (env : Env) (document instructions : String)
    (m : String) (h : dynamic_parse env document instructions = .error m) :
    ∃ r e, (dynamicParseRun env document instructions).2.getLast? = some r
      ∧ r.error = some e
      ∧ e.data <:+: m.data
      ∧ ((∃ e0, e = "Script execution failed: " ++ e0)
          ∨ (∃ e0, e = "Failed to generate script: " ++ e0))
      ∧ ((∃ e0, e = "Script execution failed: " ++ e0) →
          m = "All " ++ toString MAX_RETRIES
            ++ " parsing attempts failed. Final error: " ++ e
            ++ "\n\nAll attempts:\n"
            ++ format_attempt_history (dynamicParseRun env document instructions).2
          ∧ (format_attempt_history
              (dynamicParseRun env document instructions).2).data <:+: m.data)
      ∧ ((∃ e0, e = "Failed to generate script: " ++ e0) →
          r.script = ""
          ∧ m = "Failed to generate script after " ++ toString MAX_RETRIES
              ++ " attempts. Last error: " ++ e) := by
  obtain ⟨_, _, _, _, _, herr⟩ := dynamicParseRun_spec env document instructions
  obtain ⟨_, _, r, e, hlast, he, hdisj⟩ := herr m h
  refine ⟨r, e, hlast, he, ?_, ?_, ?_, ?_⟩
  · rcases hdisj with ⟨_, _, h1⟩ | ⟨_, h1⟩
    · rw [h1]
      exact strSeg_app_left _ (strSeg_refl e)
    · rw [h1]
      exact strSeg_app_right _ (strSeg_app_right _ (strSeg_app_left _ (strSeg_refl e)))
  · rcases hdisj with ⟨hgen, _, _⟩ | ⟨hexec, _⟩
    · exact Or.inr hgen
    · exact Or.inl hexec
  · rintro ⟨e0, he0⟩
    rcases hdisj with ⟨⟨e1, he1⟩, _, _⟩ | ⟨_, h1⟩
    · exact absurd (he1.symm.trans he0) (gen_msg_ne_exec_msg e1 e0)
    · refine ⟨h1, ?_⟩
      rw [h1]
      exact strSeg_app_left _ (strSeg_refl _)
  · rintro ⟨e0, he0⟩
    rcases hdisj with ⟨_, hsc, h1⟩ | ⟨⟨e1, he1⟩, _⟩
    · exact ⟨hsc, h1⟩
    · exact absurd (he0.symm.trans he1) (gen_msg_ne_exec_msg e0 e1)

/-- Witness for the amended C3 on a concrete execution-exhausted run. -/
theorem exhausted_error_contents_witness :
    ∃ m, dynamic_parse envExitFail "d" "i" = Except.error m
      ∧ ∃ r e, (dynamicParseRun envExitFail "d" "i").2.getLast? = some r
        ∧ r.error = some e
        ∧ e.data <:+: m.data
        ∧ ((∃ e0, e = "Script execution failed: " ++ e0)
            ∨ (∃ e0, e = "Failed to generate script: " ++ e0))
        ∧ ((∃ e0, e = "Script execution failed: " ++ e0) →
            m = "All " ++ toString MAX_RETRIES
              ++ " parsing attempts failed. Final error: " ++ e
              ++ "\n\nAll attempts:\n"
              ++ format_attempt_history (dynamicParseRun envExitFail "d" "i").2
            ∧ (format_attempt_history
                (dynamicParseRun envExitFail "d" "i").2).data <:+: m.data)
        ∧ ((∃ e0, e = "Failed to generate script: " ++ e0) →
            r.script = ""
            ∧ m = "Failed to generate script after " ++ toString MAX_RETRIES
                ++ " attempts. Last error: " ++ e) :=
  ⟨_, rfl, exhausted_error_contents envExitFail "d" "i" _ rfl⟩

/-- C4 counterexample: a spawn failure (an error of the sandbox's I/O layer)
does not abort the operation: attempt 1 is consumed, a record is logged for
it, and the run then succeeds on attempt 2. -/
theorem io_error_consumes_retry :
    dynamic_parse envSpawnThenOk "d" "i" = .ok "\x7b\x7d"
    ∧ (dynamicParseRun envSpawnThenOk "d" "i").2.length = 2
    ∧ (dynamicParseRun envSpawnThenOk "d" "i").2.head? = some
        { attempt_number := 1, script := "print(42)",
          error := some "Script execution failed: No such file or directory (os error 2)",
          success := false } :=
  ⟨rfl, rfl, rfl⟩

/-- C4 (amended): failures of the sandbox's I/O layer (spawn error, wait
error, stdout/stderr UTF-8 decode failures) are returned as ordinary errors
by the executor, and the loop handles them exactly like classified script
failures: a failure record wrapping the message is appended and a retry is
consumed. -/
theorem io_errors_are_classified (python_script document m : String)
    (code : Option Int) (stdoutRaw stderrRaw : Except String String) :
    execute_python_script python_script document (.spawnErr m) = .error m
    ∧ execute_python_script python_script document (.waitErr m) = .error m
    ∧ execute_python_script python_script document
        (.output true code (.error m) stderrRaw) = .error m
    ∧ execute_python_script python_script document
        (.output false code stdoutRaw (.error m)) = .error m
    ∧ ∀ (env : Env) (instructions s : String),
        (∀ p, env.gen 1 p = .ok s) →
        env.sandbox 1 = .spawnErr m →
        (dynamicParseRun env document instructions).2.head? = some
          { attempt_number := 1, script := s,
            error := some ("Script execution failed: " ++ m), success := false } := by
  refine ⟨rfl, rfl, rfl, rfl, ?_⟩
  intro env instructions s hgen hsand
  have h1 : dynamicParseRun env document instructions =
      parseGo env document instructions 2 (1 + 1)
        ([] ++ [⟨1, s, some ("Script execution failed: " ++ m), false⟩]) := by
    show parseGo env document instructions (2 + 1) 1 [] = _
    exact parseGo_step env document instructions 2 1 [] s m (hgen _)
      (by rw [hsand]; rfl) (by decide)
  obtain ⟨⟨t, ht⟩, _⟩ := parseGo_spec env document instructions 2 (1 + 1)
    ([] ++ [⟨1, s, some ("Script execution failed: " ++ m), false⟩])
    (by decide) (by decide) (by decide) (by simp) (by simp)
    (by intro x hx; rw [List.mem_singleton.mp hx])
    (by intro x hx
        rw [List.mem_singleton.mp hx]
        exact Or.inr (Or.inr ⟨rfl, ⟨m, rfl, by rw [hsand]; rfl⟩⟩))
    (parseGo env document instructions 2 (1 + 1)
      ([] ++ [⟨1, s, some ("Script execution failed: " ++ m), false⟩])).1
    (parseGo env document instructions 2 (1 + 1)
      ([] ++ [⟨1, s, some ("Script execution failed: " ++ m), false⟩])).2 rfl
  rw [h1, ht]
  rfl

/-- Witness for the amended C4: the executor equalities and the loop clause
on a concrete environment whose first spawn fails. -/
theorem io_errors_are_classified_witness :
    execute_python_script "print(42)" "d" (.spawnErr "boom") = .error "boom"
    ∧ (dynamicParseRun envSpawnThenOk "d" "i").2.head? = some
        { attempt_number := 1, script := "print(42)",
          error := some "Script execution failed: No such file or directory (os error 2)",
          success := false } :=
  ⟨(io_errors_are_classified "print(42)" "d" "boom" none (.ok "") (.ok "")).1,
   (io_errors_are_classified "print(42)" "d" "No such file or directory (os error 2)"
      none (.ok "") (.ok "")).2.2.2.2 envSpawnThenOk "i" "print(42)"
      (fun _ => rfl) rfl⟩

/-- C5: the final attempt log numbers its records 1, 2, ..., k contiguously
(one record per iteration), k never exceeds `MAX_RETRIES` (which is 3), the
loop stops at the first success (an `ok` result means the last record is the
success), and a terminal error occurs only after exactly `MAX_RETRIES`
attempts. -/
theorem attempt_numbers_contiguous (env : Env) (document instructions : String) :
    (dynamicParseRun env document instructions).2.map (fun r => r.attempt_number)
        = List.range' 1 (dynamicParseRun env document instructions).2.length
    ∧ (dynamicParseRun env document instructions).2.length ≤ MAX_RETRIES
    ∧ MAX_RETRIES = 3
    ∧ (∀ s, (dynamicParseRun env document instructions).1 = .ok s →
        ((dynamicParseRun env document instructions).2.getLast?.map fun r => r.success)
          = some true)
    ∧ (∀ m, (dynamicParseRun env document instructions).1 = .error m →
        (dynamicParseRun env document instructions).2.length = MAX_RETRIES) := by
  obtain ⟨hn, hl, _, _, hok, herr⟩ := dynamicParseRun_spec env document instructions
  exact ⟨hn, hl, rfl, fun s hs => (hok s hs).2, fun m hm => (herr m hm).2.1⟩

/-- Witness for C5 on concrete succeeding and exhausting runs. -/
theorem attempt_numbers_contiguous_witness :
    ((dynamicParseRun envOk "d" "i").2.getLast?.map fun r => r.success) = some true
    ∧ (dynamicParseRun envGenFail "d" "i").2.length = MAX_RETRIES :=
  ⟨(attempt_numbers_contiguous envOk "d" "i").2.2.2.1 "\x7b\x7d" rfl,
   (attempt_numbers_contiguous envGenFail "d" "i").2.2.2.2 _ rfl⟩

/-- C6: all records before the last are failures, so any success record is
the last element; consequently every sublist of the log — in particular
every prefix, i.e. every state of the log reachable during the run — holds
at most one success record. -/
theorem at_most_one_success (env : Env) (document instructions : String) :
    (∀ r ∈ (dynamicParseRun env document instructions).2.dropLast, r.success = false)
    ∧ ∀ l : List ParseAttempt, l.Sublist (dynamicParseRun env document instructions).2 →
        l.countP (fun r => r.success) ≤ 1 := by
  obtain ⟨_, _, _, hbl, _, _⟩ := dynamicParseRun_spec env document instructions
  refine ⟨hbl, fun l hl => ?_⟩
  exact le_trans (hl.countP_le _) (countP_le_one_of_dropLast hbl)

/-- Witness for C6 on a concrete exhausted run. -/
theorem at_most_one_success_witness :
    (⟨1, "print(42)",
        some "Script execution failed: Python script execution failed with exit code: 2\nSTDERR: boom\nSCRIPT:\nprint(42)",
        false⟩ : ParseAttempt).success = false
    ∧ ([] : List ParseAttempt).countP (fun r => r.success) ≤ 1 :=
  ⟨(at_most_one_success envExitFail "d" "i").1 _ (by decide),
   (at_most_one_success envExitFail "d" "i").2 [] (List.nil_sublist _)⟩

/-- C7: for any attempt after the first with a nonempty log, the user prompt
contains, verbatim, every prior failed attempt's error text and script
body. -/
theorem retry_prompt_roundtrip (document instructions : String)
    (attempts : List ParseAttempt) (current_attempt : Nat)
    (hgt : 1 < current_attempt) (hne : attempts ≠ []) :
    ∀ r ∈ attempts, ∀ e, r.error = some e →
      e.data <:+: (build_user_prompt document instructions attempts current_attempt).data
      ∧ r.script.data <:+:
          (build_user_prompt document instructions attempts current_attempt).data := by
  intro r hr e he
  have hline : attemptHistoryLine r =
      "Attempt " ++ toString r.attempt_number ++ ": "
        ++ ("FAILED - " ++ e ++ "\n"
            ++ if r.script = "" then ""
               else "Script that failed:\n```python\n" ++ r.script ++ "\n```\n\n") := by
    rw [attemptHistoryLine, he]
  have hfold := mem_foldr_seg attemptHistoryLine attempts r hr
  have hE : e.data <:+: (attemptHistoryLine r).data := by
    rw [hline]
    exact strSeg_app_left _ (strSeg_app_right _ (strSeg_app_right _
      (strSeg_app_left _ (strSeg_refl e))))
  have hS : r.script.data <:+: (attemptHistoryLine r).data := by
    rw [hline]
    by_cases hsc : r.script = ""
    · rw [hsc]
      exact List.nil_infix
    · rw [if_neg hsc]
      exact strSeg_app_left _ (strSeg_app_left _ (strSeg_app_right _
        (strSeg_app_left _ (strSeg_refl r.script))))
  have hcond : current_attempt > 1 ∧ attempts ≠ [] := ⟨hgt, hne⟩
  constructor
  · simp only [build_user_prompt]
    rw [if_pos hcond]
    exact strSeg_app_right _ (strSeg_app_right _ (strSeg_app_left _ (hE.trans hfold)))
  · simp only [build_user_prompt]
    rw [if_pos hcond]
    exact strSeg_app_right _ (strSeg_app_right _ (strSeg_app_left _ (hS.trans hfold)))

/-- Witness for C7 on a concrete failed-attempt record. -/
theorem retry_prompt_roundtrip_witness :
    ("errtext").data <:+: (build_user_prompt "d" "i"
        [⟨1, "scriptbody", some "errtext", false⟩] 2).data
    ∧ ("scriptbody").data <:+: (build_user_prompt "d" "i"
        [⟨1, "scriptbody", some "errtext", false⟩] 2).data :=
  retry_prompt_roundtrip "d" "i" [⟨1, "scriptbody", some "errtext", false⟩] 2
    (by decide) (by decide) ⟨1, "scriptbody", some "errtext", false⟩
    (List.mem_singleton.mpr rfl) "errtext" rfl

/-- C8: a record in the final log whose attempt's process exited abnormally
carries an error containing the rendered exit code and the captured stderr
text.  The record must be one for which an execution happened — i.e. not a
generation-failure record, told apart by its error's prefix; the script
itself may be empty (the model can generate an empty script). -/
theorem nonzero_exit_record_error (env : Env) (document instructions : String)
    (r : ParseAttempt) (code : Option Int) (stdoutRaw : Except String String)
    (stderrTxt : String)
    (hr : r ∈ (dynamicParseRun env document instructions).2)
    (hs : env.sandbox r.attempt_number = .output false code stdoutRaw (.ok stderrTxt))
    (hnotgen : ∀ e0, r.error ≠ some ("Failed to generate script: " ++ e0)) :
    ∃ msg, r.error = some msg
      ∧ (toString (code.getD (-1))).data <:+: msg.data
      ∧ stderrTxt.data <:+: msg.data := by
  have hl := (dynamicParseRun_spec env document instructions).ledger r hr
  rcases hl with ⟨_, _, s, hex⟩ | ⟨_, _, e0, he⟩ | ⟨_, e, he, hex⟩
  · rw [hs] at hex
    obtain ⟨c2, se2, hres, _, _⟩ := (execute_ok_iff _ _ _ _).mp hex
    exact absurd hres (by simp)
  · exact absurd he (hnotgen e0)
  · rw [hs] at hex
    have hmsg : execute_python_script r.script document
        (.output false code stdoutRaw (.ok stderrTxt)) =
        .error ("Python script execution failed with exit code: "
          ++ toString (code.getD (-1)) ++ "\nSTDERR: " ++ stderrTxt
          ++ "\nSCRIPT:\n" ++ r.script) := by
      simp [execute_python_script]
    rw [hmsg] at hex
    have hq : "Python script execution failed with exit code: "
        ++ toString (code.getD (-1)) ++ "\nSTDERR: " ++ stderrTxt
        ++ "\nSCRIPT:\n" ++ r.script = e := by injection hex
    refine ⟨"Script execution failed: " ++ e, he, ?_, ?_⟩
    · rw [← hq]
      exact strSeg_app_left _ (strSeg_app_right _ (strSeg_app_right _
        (strSeg_app_right _ (strSeg_app_right _ (strSeg_app_left _
          (strSeg_refl _))))))
    · rw [← hq]
      exact strSeg_app_left _ (strSeg_app_right _ (strSeg_app_right _
        (strSeg_app_left _ (strSeg_refl _))))

/-- Witness for C8 on a concrete abnormal exit. -/
theorem nonzero_exit_record_error_witness :
    ∃ msg, (⟨1, "print(42)",
        some "Script execution failed: Python script execution failed with exit code: 2\nSTDERR: boom\nSCRIPT:\nprint(42)",
        false⟩ : ParseAttempt).error = some msg
      ∧ (toString ((some (2 : Int)).getD (-1))).data <:+: msg.data
      ∧ ("boom").data <:+: msg.data :=
  nonzero_exit_record_error envExitFail "d" "i" _ (some 2) (.ok "") "boom"
    (by decide) rfl
    (by intro e0 hcontra
        have h2 : ("Script execution failed: "
            ++ "Python script execution failed with exit code: 2\nSTDERR: boom\nSCRIPT:\nprint(42)"
            : String) = "Failed to generate script: " ++ e0 := by
          injection hcontra
        exact gen_msg_ne_exec_msg e0 _ h2.symm)

/-- C9: the detailed variant has the same semantics as `dynamic_parse`: for
the same environment (model responses and execution outcomes) it succeeds
with the identical JSON text — additionally returning the final attempt
log — exactly when `dynamic_parse` succeeds, and fails with the identical
terminal error exactly when `dynamic_parse` fails. -/
theorem with_details_same_semantics (env : Env) (document instructions : String) :
    (∀ s log, dynamic_parse_with_details env document instructions = .ok (s, log) ↔
      (dynamic_parse env document instructions = .ok s
        ∧ (dynamicParseRun env document instructions).2 = log))
    ∧ (∀ m, dynamic_parse_with_details env document instructions = .error m ↔
        dynamic_parse env document instructions = .error m) := by
  rw [with_details_eq]
  simp only [dynamic_parse]
  cases (dynamicParseRun env document instructions).1 with
  | error e =>
    constructor
    · intro s log
      simp [Except.map]
    · intro m
      simp [Except.map]
  | ok s' =>
    constructor
    · intro s log
      simp [Except.map, and_comm]
    · intro m
      simp [Except.map]

/-- C10 counterexample: with a model that generates an empty script, attempt
1's record has an empty script although generation succeeded — the record's
error is the executor's empty-output classification, not a generation
failure — refuting "script empty exactly when the failure occurred during
generation". -/
theorem empty_script_execution_failure :
    (dynamicParseRun envEmptyScript "d" "i").2.head? = some
      { attempt_number := 1, script := "",
        error := some "Script execution failed: Script executed successfully but produced no output",
        success := false }
    ∧ ∀ e, ("Script execution failed: Script executed successfully but produced no output" : String)
        ≠ "Failed to generate script: " ++ e := by
  refine ⟨rfl, ?_⟩
  intro e h
  exact gen_msg_ne_exec_msg e "Script executed successfully but produced no output" h.symm

/-- C10 (amended): every record in the final log has success=true exactly
when its error is absent, every present error text is nonempty, and every
generation-failure record (one whose error is the generation message) has an
empty script.  (The converse fails: an execution-failure record can carry an
empty script when the model generated one — see the counterexample.) -/
theorem record_success_error_discipline (env : Env) (document instructions : String)
    (r : ParseAttempt) (hr : r ∈ (dynamicParseRun env document instructions).2) :
    (r.success = true ↔ r.error = none)
    ∧ (∀ e, r.error = some e → e ≠ "")
    ∧ (∀ e, r.error = some ("Failed to generate script: " ++ e) → r.script = "") := by
  have hl := (dynamicParseRun_spec env document instructions).ledger r hr
  rcases hl with ⟨hs, he, _⟩ | ⟨hs, hsc, e0, he⟩ | ⟨hs, e0, he, _⟩
  · refine ⟨by simp [hs, he], ?_, ?_⟩
    · intro e hee
      rw [he] at hee
      nomatch hee
    · intro e hee
      rw [he] at hee
      nomatch hee
  · refine ⟨by simp [hs, he], ?_, fun _ _ => hsc⟩
    intro e hee
    rw [he] at hee
    have h2 : "Failed to generate script: " ++ e0 = e := by injection hee
    rw [← h2]
    exact append_ne_empty_of_left _ _ (by decide)
  · refine ⟨by simp [hs, he], ?_, ?_⟩
    · intro e hee
      rw [he] at hee
      have h2 : "Script execution failed: " ++ e0 = e := by injection hee
      rw [← h2]
      exact append_ne_empty_of_left _ _ (by decide)
    · intro e hee
      rw [he] at hee
      have h2 : "Script execution failed: " ++ e0
          = "Failed to generate script: " ++ e := by injection hee
      exact absurd h2.symm (gen_msg_ne_exec_msg e e0)

/-- Witness for the amended C10 on a concrete generation-failure record. -/
theorem record_success_error_discipline_witness :
    (genFailRec.success = true ↔ genFailRec.error = none)
    ∧ (∀ e, genFailRec.error = some e → e ≠ "")
    ∧ (∀ e, genFailRec.error = some ("Failed to generate script: " ++ e) →
        genFailRec.script = "") :=
  record_success_error_discipline envGenFail "d" "i" genFailRec (by decide)

end DynParse
